import Mathlib

/-!
Shallow embedding of the py-jsonapi protocol core, together with proofs about
its behaviour.  Each definition is translated from one function or class of
the repository; the source file and line range are recorded next to it.
-/

set_option autoImplicit false

namespace PyJsonapi

/-! ## jsonapi/errors.py -/

namespace Errors

/-- The base class `Error` of jsonapi/errors.py (lines 84-132): an API error
carrying the HTTP status, a title (defaulting to the class name), a detail
text and an optional source pointer / source parameter. -/
structure Error where
  http_status : Nat
  title : String
  detail : String
  source_pointer : Option String := none
  source_parameter : Option String := none
deriving DecidableEq, Repr

/-- jsonapi/errors.py lines 279-283: `BadRequest` fixes `http_status=400`. -/
def mkBadRequest (detail : String) (source_parameter : Option String) : Error :=
  { http_status := 400, title := "BadRequest", detail := detail,
    source_parameter := source_parameter }

/-- jsonapi/errors.py lines 300-304: `NotFound` fixes `http_status=404`. -/
def mkNotFound : Error :=
  { http_status := 404, title := "NotFound", detail := "" }

/-- jsonapi/errors.py lines 307-311: `MethodNotAllowed` fixes `http_status=405`. -/
def mkMethodNotAllowed : Error :=
  { http_status := 405, title := "MethodNotAllowed", detail := "" }

/-- jsonapi/errors.py lines 446-457: `InvalidDocument` is a `BadRequest`
(`http_status=400`) used by the validator; it always carries the
`source_pointer` of the offending member. -/
def mkInvalidDocument (detail : String) (source_pointer : String) : Error :=
  { http_status := 400, title := "InvalidDocument", detail := detail,
    source_pointer := some source_pointer }

/-- The `Response` produced for an error (jsonapi/response.py is consumed via
`error_to_response`): a status, the JSON:API content type header and the
`errors` array of the body. -/
structure Response where
  status : Nat
  content_type : String
  body_errors : List Error
deriving DecidableEq, Repr

/-- jsonapi/errors.py lines 244-270, `error_to_response`: builds a response
whose status is the `http_status` of the error and whose body is the
JSON:API error document `\x7b"errors": [error.json]\x7d`. -/
def error_to_response (e : Error) : Response :=
  { status := e.http_status,
    content_type := "application/vnd.api+json",
    body_errors := [e] }

end Errors

/-! ## jsonapi/core/api.py -/

namespace Api

/-- The parts of `API` (jsonapi/core/api.py lines 78-133) that
`handle_request` consults: the debug flag, the overridable
`prepare_request` hook and the route resolution `_get_handler` (both of
which may depend on the request).  A handler is its `handle` method. -/
structure API (ρ : Type) where
  debug : Bool
  prepare_request : ρ → Except Errors.Error Unit
  get_handler : ρ → Option (ρ → Except Errors.Error Errors.Response)

/-- The `try` block of `API.handle_request` (jsonapi/core/api.py lines
417-424): run `prepare_request`, resolve a handler (raising `NotFound` when
no route matches) and delegate to `handler.handle`. -/
def handle_attempt {ρ : Type} (api : API ρ) (req : ρ) :
    Except Errors.Error Errors.Response :=
  match api.prepare_request req with
  | .error e => .error e
  | .ok _ =>
    match api.get_handler req with
    | none => .error Errors.mkNotFound
    | some h => h req

/-- `API.handle_request` (jsonapi/core/api.py lines 402-429): any declared
`errors.Error` raised while handling is re-raised when `self.debug` holds
and otherwise converted through `errors.error_to_response`. -/
def handle_request {ρ : Type} (api : API ρ) (req : ρ) :
    Except Errors.Error Errors.Response :=
  match handle_attempt api req with
  | .ok resp => .ok resp
  | .error err => if api.debug then .error err else .ok (Errors.error_to_response err)

/-- Python `bool()` on a value that is already a boolean. -/
def pyBool (b : Bool) : Bool := b

/-- The `debug` property setter of `API` (jsonapi/core/api.py lines 147-150):
`self.debug = bool(debug)` assigns through the same property, so the setter
re-invokes itself with `bool(debug)` and no base case.  The embedding counts
call steps as fuel; a normal return would produce `some` of the new state. -/
def debug_setter {σ : Type} : Nat → σ → Bool → Option σ
  | 0, _, _ => none
  | fuel + 1, st, v => debug_setter fuel st (pyBool v)

end Api

/-! ## jsonapi/core/includer.py -/

namespace Includer

/-- A relationship descriptor on an `Includer` (jsonapi/core/includer.py
lines 74-163): `ToOneRelationship` getters return one related resource or
`None`, `ToManyRelationship` getters return a list of related resources. -/
inductive RelGetter (R : Type) where
  | toOne (fget : R → Option R)
  | toMany (fget : R → List R)

/-- `Includer.fetch_path` (jsonapi/core/includer.py lines 292-315).  The
source splits the path as `name, *path = path`, looks the first segment up
in `self.__relationships` (a `KeyError`, modelled as `none`, if absent),
collects the getter results of every resource into a set — discarding
`None` for to-one getters — and returns that set.  The remaining path
segments (`rest` below) are computed but never used by the source.
Unpacking an empty path raises (`ValueError`), also modelled as `none`. -/
def fetch_path {R : Type} [DecidableEq R] (rels : String → Option (RelGetter R))
    (resources : Finset R) (path : List String) : Option (Finset R) :=
  match path with
  | [] => none
  | name :: _rest =>
    match rels name with
    | none => none
    | some (.toOne fget) => some (resources.image fget).eraseNone
    | some (.toMany fget) => some (resources.biUnion fun r => (fget r).toFinset)

/-- `Includer.fetch_paths` (jsonapi/core/includer.py lines 274-290): starts
from the empty set and unions `fetch_path` of each path in order; an
exception from `fetch_path` propagates. -/
def fetch_paths {R : Type} [DecidableEq R] (rels : String → Option (RelGetter R))
    (resources : Finset R) (paths : List (List String)) : Option (Finset R) :=
  match paths with
  | [] => some ∅
  | p :: ps =>
    match fetch_path rels resources p with
    | none => none
    | some s =>
      match fetch_paths rels resources ps with
      | none => none
      | some rest => some (s ∪ rest)

/-- Resource type used for concrete evaluations of the includer: a JSON:API
typename, an id, and a tag distinguishing separate Python objects that
happen to carry the same identifier. -/
structure Res where
  typename : String
  id : String
  tag : Nat
deriving DecidableEq, Repr

/-- The resource identifier `(typename, id)` of a `Res`. -/
def identifier (r : Res) : String × String := (r.typename, r.id)

/-- Concrete relationship table for evaluating `fetch_path` on a two-segment
path: on type level 0, relationship `a` reaches resource 1; on resource 1,
relationship `b` reaches resource 2. -/
def demoRelsDepth : String → Option (RelGetter Nat) := fun name =>
  if name = "a" then some (.toOne fun r => if r = 0 then some 1 else none)
  else if name = "b" then some (.toOne fun r => if r = 1 then some 2 else none)
  else none

/-- Concrete relationship table whose to-many getter returns two distinct
resource objects carrying the same `(typename, id)` identifier. -/
def demoRelsDup : String → Option (RelGetter Res) := fun name =>
  if name = "dup" then
    some (.toMany fun r =>
      if r.id = "root" then [⟨"T", "1", 0⟩, ⟨"T", "1", 1⟩] else [])
  else none

end Includer

/-! ## jsonapi/pagination.py and jsonapi/core/pagination.py -/

namespace Pagination

/-- The parsed query string of a request URI, as produced by
`urllib.parse.parse_qs`: each present parameter maps to its non-empty list
of values. -/
def QueryMap : Type := String → Option (List String)

/-- `BasePagination.page_link` (jsonapi/pagination.py lines 103-133):
copies the parsed query, replaces the key `page[k]` by `str(v)` for every
`(k, v)` of the *pagination* dict, and re-encodes with `doseq=True`; the
result is the query map of the produced URI.  A later entry of `pag` wins
for a duplicate key, as in a `dict` comprehension. -/
def page_link (query : QueryMap) (pag : List (String × String)) : QueryMap :=
  fun k =>
    match pag.reverse.find? (fun kv => "page[" ++ kv.1 ++ "]" = k) with
    | some kv => some [kv.2]
    | none => query k

/-- `NumberSize` (jsonapi/pagination.py lines 285-317): the current page
`number`, the page `size` and the collection size `total_resources`,
together with the parsed query of the request URI held by
`BasePagination`.  The constructor asserts `number >= 0`, `size > 0` and
`total_resources >= 0`; the first two are carried by `Nat` and the size
bound appears as a hypothesis where needed. -/
structure NumberSize where
  query : QueryMap
  number : Nat
  size : Nat
  total_resources : Nat

/-- `NumberSize.last_page` (jsonapi/pagination.py lines 367-372):
`int((self.total_resources - 1)/self.size)`.  Python evaluates the exact
quotient (as a float) and `int` truncates it toward zero, which is
`Int.tdiv` on the exact operands. -/
def NumberSize.last_page (p : NumberSize) : Int :=
  Int.tdiv ((p.total_resources : Int) - 1) (p.size : Int)

/-- `NumberSize.json_links` (jsonapi/pagination.py lines 374-400): always
emits `self`, `first` and `last`; emits `prev` only when `number > 0` and
`next` only when `number < last_page`.  Every value is a page link built by
`BasePagination.page_link`. -/
def NumberSize.json_links (p : NumberSize) : List (String × QueryMap) :=
  [("self", page_link p.query [("number", toString p.number), ("size", toString p.size)]),
   ("first", page_link p.query [("number", "0"), ("size", toString p.size)]),
   ("last", page_link p.query [("number", toString p.last_page), ("size", toString p.size)])]
  ++ (if 0 < p.number then
        [("prev", page_link p.query
          [("number", toString (p.number - 1)), ("size", toString p.size)])]
      else [])
  ++ (if (p.number : Int) < p.last_page then
        [("next", page_link p.query
          [("number", toString (p.number + 1)), ("size", toString p.size)])]
      else [])

/-- Python `str()` of a list of strings, e.g. `str(["a", "b"])` is
`[\x27a\x27, \x27b\x27]`:  `urllib.parse.urlencode` applies it to every
value when `doseq` is not set. -/
def pyStrList (vs : List String) : String :=
  "[" ++ String.intercalate ", " (vs.map fun s => "\x27" ++ s ++ "\x27") ++ "]"

/-- `Pagination._page_link` of jsonapi/core/pagination.py (lines 97-111):
overwrites `page[number]` and `page[size]` in the parsed query and encodes
with `urllib.parse.urlencode(query)` — *without* `doseq=True` — so every
remaining value, which `parse_qs` produced as a list, is stringified with
Python `str()` before being percent-encoded.  The result below is the query
map obtained by parsing the produced URI again. -/
def core_page_link (query : QueryMap) (page_number : Nat) (page_size : Nat) : QueryMap :=
  fun k =>
    if k = "page[number]" then some [toString page_number]
    else if k = "page[size]" then some [toString page_size]
    else (query k).map fun vs => [pyStrList vs]

/-- Query map of the URI `...?sort=date_added`: used to evaluate the two
page-link builders on a concrete request. -/
def demoQuery : QueryMap := fun k =>
  if k = "sort" then some ["date_added"] else none

end Pagination

/-! ## jsonapi/base/request.py -/

namespace Request

/-- Python `str.isdigit` restricted to ASCII: true on a non-empty string of
decimal digits. -/
def isdigit (s : String) : Bool :=
  !s.data.isEmpty && s.data.all Char.isDigit

/-- Python `int()` on a digit string. -/
def toNatDigits (s : String) : Nat :=
  s.data.foldl (fun n c => 10 * n + (c.toNat - 48)) 0

/-- `Request.japi_page_number` (jsonapi/base/request.py lines 124-146): the
`page[number]` query argument, absent giving `None`, a digit string giving
its integer value and anything else raising `BadRequest` naming
`page[number]`. -/
def japi_page_number (arg : Option String) : Except Errors.Error (Option Nat) :=
  match arg with
  | none => .ok none
  | some tmp =>
    if isdigit tmp then .ok (some (toNatDigits tmp))
    else .error (Errors.mkBadRequest
      "The page[number] must be a positive integer." (some "page[number]"))

/-- `Request.japi_page_size` (jsonapi/base/request.py lines 148-169): the
`page[size]` query argument, absent giving `None`, a digit string with a
positive value giving that value and anything else raising `BadRequest`
naming `page[size]`. -/
def japi_page_size (arg : Option String) : Except Errors.Error (Option Nat) :=
  match arg with
  | none => .ok none
  | some tmp =>
    if isdigit tmp && 0 < toNatDigits tmp then .ok (some (toNatDigits tmp))
    else .error (Errors.mkBadRequest
      "The page[size] must be a positive integer." (some "page[size]"))

/-- `Request.japi_paginate` (jsonapi/base/request.py lines 171-194):
evaluates `japi_page_size` first, then `japi_page_number`; both absent
gives `False`, both present (and valid) gives `True`, and a mixed
combination raises `BadRequest` naming `page[]`. -/
def japi_paginate (number_arg size_arg : Option String) : Except Errors.Error Bool :=
  match japi_page_size size_arg with
  | .error e => .error e
  | .ok size =>
    match japi_page_number number_arg with
    | .error e => .error e
    | .ok number =>
      match size, number with
      | none, none => .ok false
      | some _, some _ => .ok true
      | _, _ => .error (Errors.mkBadRequest
          "Pagination requires page[size] and page[number]." (some "page[]"))

/-- Validity of a `page[number]` value, as accepted by `japi_page_number`. -/
def numberValid (s : String) : Bool := isdigit s

/-- Validity of a `page[size]` value, as accepted by `japi_page_size`. -/
def sizeValid (s : String) : Bool := isdigit s && 0 < toNatDigits s

end Request

/-! ## jsonapi/core/encoder.py -/

namespace Encoder

/-- `Encoder.serialize_attributes` (jsonapi/core/encoder.py lines 458-484):
iterates the declared attribute descriptors in order and emits the value of
each attribute whose name survives the sparse-fieldset filter
`request.japi_fields.get(self.typename)` — `none` meaning that no filter
was given for this typename. -/
def serialize_attributes {R V : Type} (attrs : List (String × (R → V)))
    (fields : Option (List String)) (resource : R) : List (String × V) :=
  match attrs with
  | [] => []
  | (name, fget) :: rest =>
    let tail := serialize_attributes rest fields resource
    match fields with
    | none => (name, fget resource) :: tail
    | some fs => if name ∈ fs then (name, fget resource) :: tail else tail

/-- The key set of a serialized attributes object. -/
def keys {V : Type} (d : List (String × V)) : List String := d.map Prod.fst

/-- Two declared attribute descriptors over a trivial resource type, for
concrete evaluation. -/
def demoAttrs : List (String × (Unit → Nat)) :=
  [("name", fun _ => 1), ("age", fun _ => 2)]

end Encoder

/-! ## jsonapi/core/handler.py -/

namespace Handler

/-- Marker for the concrete implementation a request was dispatched to.
The method bodies invoke the storage collaborators (`Type.get_resource`,
`update_relationship`, ...) which are outside the embedded core; the claim
under study concerns the verb dispatch only. -/
inductive Dispatched where
  | relationshipGet
  | relationshipPatch
  | toManyPost
  | toManyDelete
deriving DecidableEq, Repr

/-- A handler as a table of the six verb methods (jsonapi/core/handler.py
lines 69-115).  On the base class `Handler` every method raises
`MethodNotAllowed`; subclasses override individual entries. -/
structure Methods (ρ : Type) where
  delete : ρ → Except Errors.Error Dispatched := fun _ => .error Errors.mkMethodNotAllowed
  get : ρ → Except Errors.Error Dispatched := fun _ => .error Errors.mkMethodNotAllowed
  head : ρ → Except Errors.Error Dispatched := fun _ => .error Errors.mkMethodNotAllowed
  post : ρ → Except Errors.Error Dispatched := fun _ => .error Errors.mkMethodNotAllowed
  patch : ρ → Except Errors.Error Dispatched := fun _ => .error Errors.mkMethodNotAllowed
  options : ρ → Except Errors.Error Dispatched := fun _ => .error Errors.mkMethodNotAllowed

/-- `Handler.handle` (jsonapi/core/handler.py lines 84-97): dispatches on
the lower-cased request method and raises `MethodNotAllowed` for any other
verb. -/
def handle {ρ : Type} (h : Methods ρ) (method : String) (req : ρ) :
    Except Errors.Error Dispatched :=
  if method = "delete" then h.delete req
  else if method = "get" then h.get req
  else if method = "head" then h.head req
  else if method = "post" then h.post req
  else if method = "patch" then h.patch req
  else if method = "options" then h.options req
  else .error Errors.mkMethodNotAllowed

/-- `RelationshipHandler` (jsonapi/core/handler.py lines 294-362) overrides
`get` and `patch` with real implementations. -/
def relationshipHandler (ρ : Type) : Methods ρ :=
  { get := fun _ => .ok .relationshipGet,
    patch := fun _ => .ok .relationshipPatch }

/-- `ToOneRelationshipHandler` (jsonapi/core/handler.py lines 365-368) adds
nothing to `RelationshipHandler`. -/
def toOneRelationshipHandler (ρ : Type) : Methods ρ :=
  relationshipHandler ρ

/-- `ToManyRelationshipHandler` (jsonapi/core/handler.py lines 371-435)
additionally overrides `post` and `delete` for the add/remove semantics. -/
def toManyRelationshipHandler (ρ : Type) : Methods ρ :=
  { relationshipHandler ρ with
    post := fun _ => .ok .toManyPost,
    delete := fun _ => .ok .toManyDelete }

end Handler

/-! ## jsonapi/core/validator.py -/

namespace Validator

/-- A JSON value, as decoded from a request body. -/
inductive JVal where
  | null
  | bool (v : Bool)
  | num (v : Int)
  | str (s : String)
  | arr (items : List JVal)
  | obj (fields : List (String × JVal))

/-- Modelled from the spec: the module jsonapi/core/validation.py is not
present under src/ (only its caller jsonapi/core/validator.py is).  Per the
spec a resource identifier object is the minimal reference
`\x7b"type": ..., "id": ...\x7d` whose two members identify one resource, so
the structural assertion requires a JSON object whose `type` and `id`
members are present strings; a violation raises `InvalidDocument` with the
given source pointer. -/
def assert_resource_identifier_object (d : JVal) (sp : String) :
    Except Errors.Error Unit :=
  match d with
  | .obj fields =>
    match fields.lookup "type" with
    | some (.str _) =>
      match fields.lookup "id" with
      | some (.str _) => .ok ()
      | _ => .error (Errors.mkInvalidDocument "The id must be a string." sp)
    | _ => .error (Errors.mkInvalidDocument "The type must be a string." sp)
  | _ => .error (Errors.mkInvalidDocument
      "A resource identifier object must be an object." sp)

/-- Modelled from the spec: jsonapi/core/validation.py is missing from
src/; the spec only requires a links object to be a mapping, which is what
`Relationship.pre_validate` checks through this assertion. -/
def assert_links_object (d : JVal) (sp : String) : Except Errors.Error Unit :=
  match d with
  | .obj _ => .ok ()
  | _ => .error (Errors.mkInvalidDocument "A links object must be an object." sp)

/-- Modelled from the spec: jsonapi/core/validation.py is missing from
src/; the spec only requires a meta object to be a mapping. -/
def assert_meta_object (d : JVal) (sp : String) : Except Errors.Error Unit :=
  match d with
  | .obj _ => .ok ()
  | _ => .error (Errors.mkInvalidDocument "A meta object must be an object." sp)

/-- `Relationship.pre_validate_resource_identifier_object`
(jsonapi/core/validator.py lines 367-380): asserts the resource identifier
object shape, then checks the declared remote types — an empty allow-list
accepts any `type`, otherwise the `type` must be a member, with the error
pointing at `source_pointer + "type/"`. -/
def pre_validate_resource_identifier_object (types : List String) (d : JVal)
    (sp : String) : Except Errors.Error Unit :=
  match assert_resource_identifier_object d sp with
  | .error e => .error e
  | .ok _ =>
    match d with
    | .obj fields =>
      match fields.lookup "type" with
      | some (.str t) =>
        if types ≠ [] ∧ t ∉ types then
          .error (Errors.mkInvalidDocument
            "The type must be one of the declared remote types." (sp ++ "type/"))
        else .ok ()
      | _ => .ok ()
    | _ => .ok ()

/-- `Relationship.pre_validate` (jsonapi/core/validator.py lines 382-429):
a relationship object must be a non-empty mapping with keys among `links`,
`data` and `meta`; `data` is required only when `require_data` was
declared; a present `links` or `meta` member is validated in place. -/
def relationship_pre_validate (require_data : Bool) (d : JVal) (sp : String) :
    Except Errors.Error Unit :=
  match d with
  | .obj fields =>
    if fields.isEmpty then
      .error (Errors.mkInvalidDocument
        "A relationship object must contain at least one of the members data, links, meta."
        sp)
    else if !(fields.all fun kv => kv.1 == "links" || kv.1 == "data" || kv.1 == "meta") then
      .error (Errors.mkInvalidDocument
        "A relationship object may only contain the members links, data and meta."
        sp)
    else if require_data ∧ (fields.lookup "data").isNone then
      .error (Errors.mkInvalidDocument "The data member is required." sp)
    else
      match fields.lookup "links" with
      | some l =>
        (match assert_links_object l (sp ++ "links/") with
         | .error e => .error e
         | .ok _ =>
           match fields.lookup "meta" with
           | some m => assert_meta_object m (sp ++ "meta/")
           | none => .ok ())
      | none =>
        match fields.lookup "meta" with
        | some m => assert_meta_object m (sp ++ "meta/")
        | none => .ok ()
  | _ => .error (Errors.mkInvalidDocument
      "A relationship object must be an object." sp)

/-- `ToOneRelationship.pre_validate` (jsonapi/core/validator.py lines
432-461): after the base checks, a present `data` member must be `null` or
a resource identifier object; anything else raises with pointer
`source_pointer + "data/"`. -/
def to_one_pre_validate (types : List String) (require_data : Bool) (d : JVal)
    (sp : String) : Except Errors.Error Unit :=
  match relationship_pre_validate require_data d sp with
  | .error e => .error e
  | .ok _ =>
    match d with
    | .obj fields =>
      match fields.lookup "data" with
      | none => .ok ()
      | some .null => .ok ()
      | some (.obj f2) =>
        pre_validate_resource_identifier_object types (.obj f2) (sp ++ "data/")
      | some _ => .error (Errors.mkInvalidDocument
          "The data member must be null or a resource identifier object."
          (sp ++ "data/"))
    | _ => .ok ()

/-- The `for i, item in enumerate(d["data"])` loop of
`ToManyRelationship.pre_validate` (jsonapi/core/validator.py lines
475-480): each item is validated as a resource identifier object with
pointer `source_pointer + "[i]/"`. -/
def validate_identifier_items (types : List String) (items : List JVal)
    (sp : String) (i : Nat) : Except Errors.Error Unit :=
  match items with
  | [] => .ok ()
  | item :: rest =>
    match pre_validate_resource_identifier_object types item
        (sp ++ "[" ++ toString i ++ "]/") with
    | .error e => .error e
    | .ok _ => validate_identifier_items types rest sp (i + 1)

/-- `ToManyRelationship.pre_validate` (jsonapi/core/validator.py lines
464-486): after the base checks, a present `data` member must be a list,
each of whose items is a valid resource identifier object. -/
def to_many_pre_validate (types : List String) (require_data : Bool) (d : JVal)
    (sp : String) : Except Errors.Error Unit :=
  match relationship_pre_validate require_data d sp with
  | .error e => .error e
  | .ok _ =>
    match d with
    | .obj fields =>
      match fields.lookup "data" with
      | none => .ok ()
      | some (.arr items) => validate_identifier_items types items sp 0
      | some _ => .error (Errors.mkInvalidDocument
          "The data member must be a list." (sp ++ "data/"))
    | _ => .ok ()

/-- Validity of a resource identifier object against a remote-type
allow-list: a JSON object with string `type` and `id` members whose `type`
is unconstrained when the allow-list is empty and a member of it
otherwise. -/
def identifierOk (types : List String) (v : JVal) : Prop :=
  ∃ fields t i, v = .obj fields ∧
    fields.lookup "type" = some (.str t) ∧
    fields.lookup "id" = some (.str i) ∧
    (types = [] ∨ t ∈ types)

end Validator

/-! ## Concrete instances used to evaluate the embedded functions -/

/-- An API over a trivial request type whose only route raises `NotFound`,
in production mode. -/
def demoAPI : Api.API Unit :=
  { debug := false,
    prepare_request := fun _ => .ok (),
    get_handler := fun _ => some (fun _ => .error Errors.mkNotFound) }

/-- Relationship table over identifier pairs themselves (so the identifier
map is injective): relationship `one` always reaches the resource
`("T", "1")`. -/
def demoRelsInj : String → Option (Includer.RelGetter (String × String)) := fun name =>
  if name = "one" then some (.toMany fun _ => [("T", "1")]) else none

/-- A concrete `NumberSize` pagination object: page 1 of size 2 over 5
resources. -/
def demoPager : Pagination.NumberSize :=
  { query := Pagination.demoQuery, number := 1, size := 2, total_resources := 5 }

/-! ## Theorems -/

/-- Claim C10: assigning any value to the `debug` property after
construction never terminates normally — the setter `self.debug =
bool(debug)` re-invokes itself with no base case, so no amount of call
steps produces a normal return (`some` state); debug mode is effectively
fixed at construction time. -/
theorem claim_C10_debug_setter_diverges {σ : Type} :
    ∀ (fuel : Nat) (st : σ) (v : Bool), Api.debug_setter fuel st v = none := by
  intro fuel
  induction fuel with
  | zero => intro st v; rfl
  | succ n ih => intro st v; exact ih st (Api.pyBool v)

/-- Claim C1 (evaluation at the failing input): with relationship `a`
leading from resource 0 to resource 1 and relationship `b` from 1 to 2,
`fetch_path` on the two-segment path `["a", "b"]` returns only the
first-level relative `{1}` and never reaches resource 2, although the
second segment applied to the fetched set would produce it — the remaining
path segments are discarded instead of recursed on. -/
theorem claim_C1_fetch_path_first_level_only :
    Includer.fetch_path Includer.demoRelsDepth {0} ["a", "b"] = some {1} ∧
    (2 : Nat) ∉ ((Includer.fetch_path Includer.demoRelsDepth {0} ["a", "b"]).getD ∅) ∧
    Includer.fetch_path Includer.demoRelsDepth {1} ["b"] = some {2} := by
  refine ⟨by decide, by decide, by decide⟩

/-- `BasePagination.page_link` replaces only the `page[...]` parameters of
the pagination dict: a key that differs from the produced URI query differs
only because it is such a parameter, and every key that is not one of them
keeps its original values. -/
theorem page_link_preserves_other_params (q : Pagination.QueryMap)
    (pag : List (String × String)) (k : String) :
    (Pagination.page_link q pag k ≠ q k → ∃ kv ∈ pag, k = "page[" ++ kv.1 ++ "]") ∧
    ((∀ kv ∈ pag, k ≠ "page[" ++ kv.1 ++ "]") → Pagination.page_link q pag k = q k) := by
  unfold Pagination.page_link
  rcases hf : pag.reverse.find? (fun kv => "page[" ++ kv.1 ++ "]" = k) with _ | kv
  · rw [hf]
    exact ⟨fun h => absurd rfl h, fun _ => rfl⟩
  · rw [hf]
    have hmem : kv ∈ pag.reverse := List.mem_of_find?_eq_some hf
    have hprop := List.find?_some hf
    rw [List.mem_reverse] at hmem
    refine ⟨fun _ => ⟨kv, hmem, (of_decide_eq_true hprop).symm⟩, fun hk => ?_⟩
    exact absurd (of_decide_eq_true hprop).symm (hk kv hmem)

/-- Claim C8 (evaluation at the failing input): on the request URI query
`sort=date_added`, the page link built by
`jsonapi.core.pagination.Pagination._page_link` carries
`sort=[\x27date_added\x27]` — the Python `str()` of the `parse_qs` list,
because `urlencode` is called without `doseq=True` — while the original
query and the link built by `BasePagination.page_link` of
jsonapi/pagination.py both carry `sort=date_added`. -/
theorem claim_C8_core_page_link_divergence :
    Pagination.core_page_link Pagination.demoQuery 1 25 "sort"
      = some ["[\x27date_added\x27]"] ∧
    Pagination.demoQuery "sort" = some ["date_added"] ∧
    Pagination.page_link Pagination.demoQuery [("number", "1"), ("size", "25")] "sort"
      = some ["date_added"] := by
  refine ⟨by decide, rfl, by decide⟩

/-- Claim C2 (counterexample): a to-many getter returning two distinct
resource objects that carry the same `(typename, id)` makes `fetch_paths`
return both of them — deduplication is by object equality of the Python
`set`, not by resource identifier equality, so the claim fails at this
input. -/
theorem claim_C2_counterexample :
    Includer.fetch_paths Includer.demoRelsDup {⟨"A", "root", 0⟩} [["dup"]] =
      some {⟨"T", "1", 0⟩, ⟨"T", "1", 1⟩} ∧
    (⟨"T", "1", 0⟩ : Includer.Res) ≠ (⟨"T", "1", 1⟩ : Includer.Res) ∧
    Includer.identifier ⟨"T", "1", 0⟩ = Includer.identifier ⟨"T", "1", 1⟩ := by
  refine ⟨by decide, by decide, rfl⟩

/-- Claim C2 (amended): `fetch_paths` deduplicates by resource object
equality (it returns a set of resource objects); whenever distinct resource
objects never share a `(typename, id)` identifier, no two returned entries
have equal identifiers; and a second call with the same resources and the
same paths returns the identical set. -/
theorem claim_C2_amended {R : Type} [DecidableEq R] (ident : R → String × String)
    (rels : String → Option (Includer.RelGetter R)) (resources : Finset R)
    (paths : List (List String)) (res res₂ : Finset R)
    (hinj : Function.Injective ident)
    (h₁ : Includer.fetch_paths rels resources paths = some res)
    (h₂ : Includer.fetch_paths rels resources paths = some res₂) :
    (∀ r₁ ∈ res, ∀ r₂ ∈ res, r₁ ≠ r₂ → ident r₁ ≠ ident r₂) ∧ res₂ = res := by
  refine ⟨fun r₁ _ r₂ _ hne h => hne (hinj h), ?_⟩
  exact (Option.some.inj (h₁.symm.trans h₂)).symm

/-- Witness for the amended claim C2, on the identity identifier map and
the relationship table `demoRelsInj`. -/
theorem claim_C2_amended_witness :
    (∀ r₁ ∈ ({("T", "1")} : Finset (String × String)),
      ∀ r₂ ∈ ({("T", "1")} : Finset (String × String)),
        r₁ ≠ r₂ → id r₁ ≠ id r₂) ∧
    ({("T", "1")} : Finset (String × String)) = {("T", "1")} :=
  claim_C2_amended (id : String × String → String × String) demoRelsInj
    {("A", "root")} [["one"]] {("T", "1")} {("T", "1")}
    (fun _ _ h => h) (by decide) (by decide)

/-- Claim C4: when handling a request raises a declared error, production
mode (`debug = False`) converts it to a JSON:API error-document response
whose HTTP status is the http_status of the error, while debug mode lets
the exception propagate unmodified; `BadRequest`, `NotFound` and
`MethodNotAllowed` carry the statuses 400, 404 and 405. -/
theorem claim_C4_handle_request_errors {ρ : Type} (api : Api.API ρ) (req : ρ)
    (e : Errors.Error) (h : Api.handle_attempt api req = .error e) :
    (api.debug = false →
      Api.handle_request api req = .ok (Errors.error_to_response e) ∧
      (Errors.error_to_response e).status = e.http_status) ∧
    (api.debug = true → Api.handle_request api req = .error e) ∧
    (∀ d p, (Errors.mkBadRequest d p).http_status = 400) ∧
    Errors.mkNotFound.http_status = 404 ∧
    Errors.mkMethodNotAllowed.http_status = 405 := by
  refine ⟨fun hd => ?_, fun hd => ?_, fun _ _ => rfl, rfl, rfl⟩
  · unfold Api.handle_request
    rw [h, hd]
    exact ⟨rfl, rfl⟩
  · unfold Api.handle_request
    rw [h, hd]
    rfl

/-- Witness for claim C4: `demoAPI` runs in production mode and its only
handler raises `NotFound`; `handle_request` answers with the 404 error
document. -/
theorem claim_C4_handle_request_errors_witness :
    Api.handle_request demoAPI () = .ok (Errors.error_to_response Errors.mkNotFound) ∧
    (Errors.error_to_response Errors.mkNotFound).status = Errors.mkNotFound.http_status :=
  (claim_C4_handle_request_errors demoAPI () Errors.mkNotFound rfl).1 rfl

/-- Claim C9: on a to-one relationship endpoint only `GET` and `PATCH` are
dispatched to real implementations — every other verb (including `POST`
and `DELETE`) raises `MethodNotAllowed` — while the to-many relationship
handler additionally dispatches `POST` and `DELETE` to the add/remove
implementations. -/
theorem claim_C9_to_one_relationship_dispatch {ρ : Type} (req : ρ) :
    Handler.handle (Handler.toOneRelationshipHandler ρ) "get" req = .ok .relationshipGet ∧
    Handler.handle (Handler.toOneRelationshipHandler ρ) "patch" req = .ok .relationshipPatch ∧
    (∀ m : String, m ≠ "get" → m ≠ "patch" →
      Handler.handle (Handler.toOneRelationshipHandler ρ) m req
        = .error Errors.mkMethodNotAllowed) ∧
    Handler.handle (Handler.toManyRelationshipHandler ρ) "post" req = .ok .toManyPost ∧
    Handler.handle (Handler.toManyRelationshipHandler ρ) "delete" req = .ok .toManyDelete ∧
    Handler.handle (Handler.toManyRelationshipHandler ρ) "get" req = .ok .relationshipGet ∧
    Handler.handle (Handler.toManyRelationshipHandler ρ) "patch" req = .ok .relationshipPatch := by
  refine ⟨rfl, rfl, fun m h1 h2 => ?_, rfl, rfl, rfl, rfl⟩
  simp only [Handler.handle]
  split_ifs <;> rfl

/-- Witness for claim C9: a `POST` to a to-one relationship endpoint
answers `MethodNotAllowed`. -/
theorem claim_C9_to_one_relationship_dispatch_witness :
    Handler.handle (Handler.toOneRelationshipHandler Unit) "post" ()
      = .error Errors.mkMethodNotAllowed :=
  (claim_C9_to_one_relationship_dispatch ()).2.2.1 "post" (by decide) (by decide)

/-- Truncating division — Python `int()` of the exact quotient `(t-1)/s` —
and floor division place a natural number n on the same side of the bound:
they differ only at `t = 0` with `s > 1`, where both bounds are below
every natural n. -/
theorem lt_tdiv_iff_lt_fdiv (n t s : Nat) (hs : 1 ≤ s) :
    ((n : Int) < Int.tdiv ((t : Int) - 1) (s : Int)) ↔
      ((n : Int) < Int.fdiv ((t : Int) - 1) (s : Int)) := by
  cases t with
  | zero =>
    simp only [Nat.cast_zero, zero_sub]
    have h0 : (0 : Int) ≤ Int.tdiv 1 (s : Int) :=
      @Int.tdiv_nonneg 1 (s : Int) (by omega) (by omega)
    have h2 : Int.tdiv (-1) (s : Int) = -(Int.tdiv 1 (s : Int)) := by
      have h3 := Int.neg_tdiv 1 (s : Int)
      simp only [Int.reduceNeg] at h3
      exact h3
    have h4 : Int.fdiv (-1) (s : Int) < 0 := Int.fdiv_neg' (by omega) (by exact_mod_cast hs)
    rw [h2]
    constructor
    · intro h; omega
    · intro h; omega
  | succ u =>
    have e : (((u + 1 : Nat)) : Int) - 1 = (u : Int) := by push_cast; ring
    rw [e, Int.fdiv_eq_tdiv (by omega) (by omega)]

/-- Claim C3: for a `NumberSize` pagination with page size at least 1,
`json_links()` always contains the keys `self`, `first` and `last`;
it contains `prev` exactly when the page number is positive; and it
contains `next` exactly when the page number is below
`floor((total_resources - 1) / size)`. -/
theorem claim_C3_number_size_links (p : Pagination.NumberSize) (hs : 1 ≤ p.size) :
    ("self" ∈ p.json_links.map Prod.fst ∧
     "first" ∈ p.json_links.map Prod.fst ∧
     "last" ∈ p.json_links.map Prod.fst) ∧
    ("prev" ∈ p.json_links.map Prod.fst ↔ 0 < p.number) ∧
    ("next" ∈ p.json_links.map Prod.fst ↔
      (p.number : Int) < Int.fdiv ((p.total_resources : Int) - 1) (p.size : Int)) := by
  have hkeys : p.json_links.map Prod.fst =
      ["self", "first", "last"]
        ++ (if 0 < p.number then ["prev"] else [])
        ++ (if (p.number : Int) < p.last_page then ["next"] else []) := by
    unfold Pagination.NumberSize.json_links
    by_cases h1 : 0 < p.number <;> by_cases h2 : (p.number : Int) < p.last_page <;>
      simp [h1, h2]
  have hlast : ((p.number : Int) < p.last_page) ↔
      ((p.number : Int) < Int.fdiv ((p.total_resources : Int) - 1) (p.size : Int)) := by
    unfold Pagination.NumberSize.last_page
    exact lt_tdiv_iff_lt_fdiv p.number p.total_resources p.size hs
  rw [hkeys, ← hlast]
  by_cases h1 : 0 < p.number <;> by_cases h2 : (p.number : Int) < p.last_page <;>
    simp [h1, h2]

/-- Witness for claim C3 on a concrete pagination object: page 1 of size 2
over 5 resources has all five links. -/
theorem claim_C3_number_size_links_witness :
    ("self" ∈ demoPager.json_links.map Prod.fst ∧
     "first" ∈ demoPager.json_links.map Prod.fst ∧
     "last" ∈ demoPager.json_links.map Prod.fst) ∧
    ("prev" ∈ demoPager.json_links.map Prod.fst ↔ 0 < demoPager.number) ∧
    ("next" ∈ demoPager.json_links.map Prod.fst ↔
      (demoPager.number : Int) <
        Int.fdiv ((demoPager.total_resources : Int) - 1) (demoPager.size : Int)) :=
  claim_C3_number_size_links demoPager (by decide)

/-- The keys emitted by `serialize_attributes` without a sparse fieldset
are exactly the declared attribute names, in declaration order. -/
theorem keys_serialize_attributes_none {R V : Type} (attrs : List (String × (R → V)))
    (r : R) :
    Encoder.keys (Encoder.serialize_attributes attrs none r) = attrs.map Prod.fst := by
  induction attrs with
  | nil => rfl
  | cons a rest ih =>
    obtain ⟨name, fget⟩ := a
    simpa [Encoder.serialize_attributes, Encoder.keys] using ih

/-- A key is emitted by `serialize_attributes` under a sparse fieldset
exactly when it is a declared attribute name that the fieldset requested. -/
theorem mem_keys_serialize_attributes_some {R V : Type} (attrs : List (String × (R → V)))
    (fs : List String) (r : R) (k : String) :
    k ∈ Encoder.keys (Encoder.serialize_attributes attrs (some fs) r) ↔
      k ∈ attrs.map Prod.fst ∧ k ∈ fs := by
  induction attrs with
  | nil => simp [Encoder.serialize_attributes, Encoder.keys]
  | cons a rest ih =>
    obtain ⟨name, fget⟩ := a
    by_cases hn : name ∈ fs
    · simp only [Encoder.serialize_attributes, Encoder.keys, if_pos hn, List.map_cons,
        List.mem_cons]
      simp only [Encoder.keys] at ih
      rw [ih]
      constructor
      · rintro (rfl | ⟨hm, hf⟩)
        · exact ⟨Or.inl rfl, hn⟩
        · exact ⟨Or.inr hm, hf⟩
      · rintro ⟨rfl | hm, hf⟩
        · exact Or.inl rfl
        · exact Or.inr ⟨hm, hf⟩
    · simp only [Encoder.serialize_attributes, Encoder.keys, if_neg hn, List.map_cons,
        List.mem_cons]
      simp only [Encoder.keys] at ih
      rw [ih]
      constructor
      · rintro ⟨hm, hf⟩
        exact ⟨Or.inr hm, hf⟩
      · rintro ⟨rfl | hm, hf⟩
        · exact absurd hf hn
        · exact ⟨hm, hf⟩

/-- Claim C7: the key set of `serialize_attributes` without a sparse
fieldset entry for the typename is a superset of the key set under any
fields list, and under a fields list the keys are exactly the requested
fields intersected with the declared attribute names. -/
theorem claim_C7_sparse_fieldsets {R V : Type} (attrs : List (String × (R → V)))
    (r : R) (fs : List String) :
    (∀ k, k ∈ Encoder.keys (Encoder.serialize_attributes attrs (some fs) r) →
        k ∈ Encoder.keys (Encoder.serialize_attributes attrs none r)) ∧
    (∀ k, k ∈ Encoder.keys (Encoder.serialize_attributes attrs (some fs) r) ↔
        k ∈ fs ∧ k ∈ attrs.map Prod.fst) := by
  constructor
  · intro k hk
    rw [keys_serialize_attributes_none]
    exact ((mem_keys_serialize_attributes_some attrs fs r k).1 hk).1
  · intro k
    rw [mem_keys_serialize_attributes_some]
    exact and_comm

/-- Witness for claim C7: the attribute `name` requested through the
fieldset is also present without a fieldset. -/
theorem claim_C7_sparse_fieldsets_witness :
    "name" ∈ Encoder.keys (Encoder.serialize_attributes Encoder.demoAttrs none ()) :=
  (claim_C7_sparse_fieldsets Encoder.demoAttrs () ["name", "oops"]).1 "name" (by decide)

/-- Claim C6: `page[number]` and `page[size]` are either both absent —
`japi_paginate` is `False` — or both present and valid — `japi_paginate`
is `True`; an invalid value raises `BadRequest` naming the offending
parameter in `source_parameter` (`page[size]` being checked first), and a
combination with exactly one valid parameter raises `BadRequest` naming
`page[]`. -/
theorem claim_C6_japi_paginate (narg sarg : Option String) :
    (narg = none → sarg = none → Request.japi_paginate narg sarg = .ok false) ∧
    (∀ ns ss, narg = some ns → sarg = some ss →
      Request.numberValid ns = true → Request.sizeValid ss = true →
      Request.japi_paginate narg sarg = .ok true) ∧
    (∀ ss, sarg = some ss → Request.sizeValid ss = false →
      ∃ e, Request.japi_paginate narg sarg = .error e ∧ e.http_status = 400 ∧
        e.source_parameter = some "page[size]") ∧
    (∀ ns, narg = some ns → Request.numberValid ns = false →
      (sarg = none ∨ ∃ ss, sarg = some ss ∧ Request.sizeValid ss = true) →
      ∃ e, Request.japi_paginate narg sarg = .error e ∧ e.http_status = 400 ∧
        e.source_parameter = some "page[number]") ∧
    ((narg = none ∧ ∃ ss, sarg = some ss ∧ Request.sizeValid ss = true) ∨
     ((∃ ns, narg = some ns ∧ Request.numberValid ns = true) ∧ sarg = none) →
      ∃ e, Request.japi_paginate narg sarg = .error e ∧ e.http_status = 400 ∧
        e.source_parameter = some "page[]") := by
  refine ⟨?_, ?_, ?_, ?_, ?_⟩
  · rintro rfl rfl
    rfl
  · rintro ns ss rfl rfl hn hs
    have hs2 : (Request.isdigit ss && decide (0 < Request.toNatDigits ss)) = true := hs
    have hn2 : Request.isdigit ns = true := hn
    simp [Request.japi_paginate, Request.japi_page_size, Request.japi_page_number, hs2, hn2]
  · rintro ss rfl hs
    have hs2 : (Request.isdigit ss && decide (0 < Request.toNatDigits ss)) = false := hs
    refine ⟨Errors.mkBadRequest "The page[size] must be a positive integer."
      (some "page[size]"), ?_, rfl, rfl⟩
    simp [Request.japi_paginate, Request.japi_page_size, hs2]
  · rintro ns rfl hn hside
    have hn2 : Request.isdigit ns = false := hn
    refine ⟨Errors.mkBadRequest "The page[number] must be a positive integer."
      (some "page[number]"), ?_, rfl, rfl⟩
    rcases hside with rfl | ⟨ss, rfl, hs⟩
    · simp [Request.japi_paginate, Request.japi_page_size, Request.japi_page_number, hn2]
    · have hs2 : (Request.isdigit ss && decide (0 < Request.toNatDigits ss)) = true := hs
      simp [Request.japi_paginate, Request.japi_page_size, Request.japi_page_number, hs2, hn2]
  · rintro (⟨rfl, ss, rfl, hs⟩ | ⟨⟨ns, rfl, hn⟩, rfl⟩)
    · have hs2 : (Request.isdigit ss && decide (0 < Request.toNatDigits ss)) = true := hs
      refine ⟨Errors.mkBadRequest "Pagination requires page[size] and page[number]."
        (some "page[]"), ?_, rfl, rfl⟩
      simp [Request.japi_paginate, Request.japi_page_size, Request.japi_page_number, hs2]
    · have hn2 : Request.isdigit ns = true := hn
      refine ⟨Errors.mkBadRequest "Pagination requires page[size] and page[number]."
        (some "page[]"), ?_, rfl, rfl⟩
      simp [Request.japi_paginate, Request.japi_page_size, Request.japi_page_number, hn2]

/-- A successful resource identifier assertion means the document is an
object with string `type` and `id` members. -/
theorem assert_rio_ok {d : Validator.JVal} {sp : String}
    (h : Validator.assert_resource_identifier_object d sp = .ok ()) :
    ∃ fields t i, d = .obj fields ∧
      fields.lookup "type" = some (.str t) ∧
      fields.lookup "id" = some (.str i) := by
  unfold Validator.assert_resource_identifier_object at h
  split at h
  next fields =>
    split at h
    next hty =>
      split at h
      next hid => exact ⟨fields, _, _, rfl, hty, hid⟩
      next => exact Except.noConfusion h
    next => exact Except.noConfusion h
  next => exact Except.noConfusion h

/-- A failed resource identifier assertion is an `InvalidDocument` error
pointing at the given source pointer. -/
theorem assert_rio_error {d : Validator.JVal} {sp : String} {e : Errors.Error}
    (h : Validator.assert_resource_identifier_object d sp = .error e) :
    e.http_status = 400 ∧ e.title = "InvalidDocument" ∧ e.source_pointer = some sp := by
  unfold Validator.assert_resource_identifier_object at h
  split at h
  next fields =>
    split at h
    next =>
      split at h
      next => exact Except.noConfusion h
      next =>
        injection h with h
        subst h
        exact ⟨rfl, rfl, rfl⟩
    next =>
      injection h with h
      subst h
      exact ⟨rfl, rfl, rfl⟩
  next =>
    injection h with h
    subst h
    exact ⟨rfl, rfl, rfl⟩

/-- A failed links object assertion is an `InvalidDocument` error pointing
at the given source pointer. -/
theorem assert_links_error {d : Validator.JVal} {sp : String} {e : Errors.Error}
    (h : Validator.assert_links_object d sp = .error e) :
    e.http_status = 400 ∧ e.title = "InvalidDocument" ∧ e.source_pointer = some sp := by
  unfold Validator.assert_links_object at h
  split at h
  · exact Except.noConfusion h
  · injection h with h
    subst h
    exact ⟨rfl, rfl, rfl⟩

/-- A failed meta object assertion is an `InvalidDocument` error pointing
at the given source pointer. -/
theorem assert_meta_error {d : Validator.JVal} {sp : String} {e : Errors.Error}
    (h : Validator.assert_meta_object d sp = .error e) :
    e.http_status = 400 ∧ e.title = "InvalidDocument" ∧ e.source_pointer = some sp := by
  unfold Validator.assert_meta_object at h
  split at h
  · exact Except.noConfusion h
  · injection h with h
    subst h
    exact ⟨rfl, rfl, rfl⟩

/-- A resource identifier object that passes
`pre_validate_resource_identifier_object` is valid against the remote-type
allow-list. -/
theorem pre_validate_rio_ok {types : List String} {d : Validator.JVal} {sp : String}
    (h : Validator.pre_validate_resource_identifier_object types d sp = .ok ()) :
    Validator.identifierOk types d := by
  unfold Validator.pre_validate_resource_identifier_object at h
  split at h
  next => exact Except.noConfusion h
  next heq =>
    obtain ⟨fields2, t2, i, hd2, hty2, hid2⟩ := assert_rio_ok heq
    subst hd2
    split at h
    next flds heq2 =>
      injection heq2 with heq2
      subst heq2
      split at h
      next t hty =>
        have ht : t = t2 := by
          have hstr : Validator.JVal.str t = Validator.JVal.str t2 :=
            Option.some.inj (hty.symm.trans hty2)
          injection hstr
        subst ht
        split at h
        next => exact Except.noConfusion h
        next hcond =>
          refine ⟨fields2, t, i, rfl, hty, hid2, ?_⟩
          by_cases he : types = []
          · exact Or.inl he
          · right
            by_contra hmem
            exact hcond ⟨he, hmem⟩
      next hne =>
        exact absurd hty2 (hne t2)
    next hne0 =>
      exact absurd rfl (hne0 fields2)

/-- A failed `pre_validate_resource_identifier_object` is an
`InvalidDocument` error whose pointer extends the given source pointer. -/
theorem pre_validate_rio_error {types : List String} {d : Validator.JVal}
    {sp : String} {e : Errors.Error}
    (h : Validator.pre_validate_resource_identifier_object types d sp = .error e) :
    e.http_status = 400 ∧ e.title = "InvalidDocument" ∧
      ∃ s, e.source_pointer = some (sp ++ s) := by
  unfold Validator.pre_validate_resource_identifier_object at h
  split at h
  next heq =>
    injection h with h
    subst h
    obtain ⟨h1, h2, h3⟩ := assert_rio_error heq
    exact ⟨h1, h2, "", by rw [h3, String.append_empty]⟩
  next =>
    split at h
    next fields =>
      split at h
      next =>
        split at h
        next =>
          injection h with h
          subst h
          exact ⟨rfl, rfl, "type/", rfl⟩
        next => exact Except.noConfusion h
      next => exact Except.noConfusion h
    next => exact Except.noConfusion h

/-- A failed `Relationship.pre_validate` is an `InvalidDocument` error
whose pointer extends the given source pointer. -/
theorem relationship_pre_validate_error {rd : Bool} {d : Validator.JVal}
    {sp : String} {e : Errors.Error}
    (h : Validator.relationship_pre_validate rd d sp = .error e) :
    e.http_status = 400 ∧ e.title = "InvalidDocument" ∧
      ∃ s, e.source_pointer = some (sp ++ s) := by
  unfold Validator.relationship_pre_validate at h
  split at h
  next fields =>
    split_ifs at h with h1 h2 h3
    · injection h with h
      subst h
      exact ⟨rfl, rfl, "", by rw [String.append_empty]; rfl⟩
    · injection h with h
      subst h
      exact ⟨rfl, rfl, "", by rw [String.append_empty]; rfl⟩
    · injection h with h
      subst h
      exact ⟨rfl, rfl, "", by rw [String.append_empty]; rfl⟩
    · split at h
      next =>
        split at h
        next heq =>
          injection h with h
          subst h
          obtain ⟨g1, g2, g3⟩ := assert_links_error heq
          exact ⟨g1, g2, "links/", g3⟩
        next =>
          split at h
          next =>
            obtain ⟨g1, g2, g3⟩ := assert_meta_error h
            exact ⟨g1, g2, "meta/", g3⟩
          next => exact Except.noConfusion h
      next =>
        split at h
        next =>
          obtain ⟨g1, g2, g3⟩ := assert_meta_error h
          exact ⟨g1, g2, "meta/", g3⟩
        next => exact Except.noConfusion h
  next =>
    injection h with h
    subst h
    exact ⟨rfl, rfl, "", by rw [String.append_empty]; rfl⟩

/-- Every item accepted by the enumeration loop of
`ToManyRelationship.pre_validate` is a valid resource identifier object. -/
theorem validate_identifier_items_ok {types : List String} {items : List Validator.JVal}
    {sp : String} {i : Nat}
    (h : Validator.validate_identifier_items types items sp i = .ok ()) :
    ∀ x ∈ items, Validator.identifierOk types x := by
  induction items generalizing i with
  | nil => intro x hx; exact absurd hx (List.not_mem_nil x)
  | cons a rest ih =>
    unfold Validator.validate_identifier_items at h
    split at h
    next => exact Except.noConfusion h
    next heq =>
      intro x hx
      rcases List.mem_cons.1 hx with rfl | hx
      · exact pre_validate_rio_ok heq
      · exact ih h x hx

/-- A failure of the enumeration loop of `ToManyRelationship.pre_validate`
is an `InvalidDocument` error whose pointer extends the loop's source
pointer. -/
theorem validate_identifier_items_error {types : List String}
    {items : List Validator.JVal} {sp : String} {i : Nat} {e : Errors.Error}
    (h : Validator.validate_identifier_items types items sp i = .error e) :
    e.http_status = 400 ∧ e.title = "InvalidDocument" ∧
      ∃ s, e.source_pointer = some (sp ++ s) := by
  induction items generalizing i with
  | nil => exact Except.noConfusion h
  | cons a rest ih =>
    unfold Validator.validate_identifier_items at h
    split at h
    next heq =>
      injection h with h
      subst h
      obtain ⟨g1, g2, s, g3⟩ := pre_validate_rio_error heq
      refine ⟨g1, g2, "[" ++ toString i ++ "]/" ++ s, ?_⟩
      rw [g3]
      simp [String.append_assoc]
    next => exact ih h

/-- A to-one relationship object that validates has a `data` member that is
null or a valid resource identifier object. -/
theorem to_one_ok_data {types : List String} {rd : Bool}
    {fields : List (String × Validator.JVal)} {sp : String} {v : Validator.JVal}
    (h : Validator.to_one_pre_validate types rd (.obj fields) sp = .ok ())
    (hv : fields.lookup "data" = some v) :
    v = .null ∨ Validator.identifierOk types v := by
  unfold Validator.to_one_pre_validate at h
  split at h
  next => exact Except.noConfusion h
  next =>
    split at h
    next flds heq2 =>
      injection heq2 with heq2
      subst heq2
      rw [hv] at h
      cases v with
      | null => exact Or.inl rfl
      | obj f2 => exact Or.inr (pre_validate_rio_ok h)
      | bool b => exact Except.noConfusion h
      | num n => exact Except.noConfusion h
      | str s => exact Except.noConfusion h
      | arr items => exact Except.noConfusion h
    next hne0 =>
      exact absurd rfl (hne0 fields)

/-- A to-many relationship object that validates has a `data` member that
is an array of valid resource identifier objects. -/
theorem to_many_ok_data {types : List String} {rd : Bool}
    {fields : List (String × Validator.JVal)} {sp : String} {v : Validator.JVal}
    (h : Validator.to_many_pre_validate types rd (.obj fields) sp = .ok ())
    (hv : fields.lookup "data" = some v) :
    ∃ items, v = .arr items ∧ ∀ x ∈ items, Validator.identifierOk types x := by
  unfold Validator.to_many_pre_validate at h
  split at h
  next => exact Except.noConfusion h
  next =>
    split at h
    next flds heq2 =>
      injection heq2 with heq2
      subst heq2
      rw [hv] at h
      cases v with
      | arr items => exact ⟨items, rfl, validate_identifier_items_ok h⟩
      | null => exact Except.noConfusion h
      | bool b => exact Except.noConfusion h
      | num n => exact Except.noConfusion h
      | str s => exact Except.noConfusion h
      | obj f2 => exact Except.noConfusion h
    next hne0 =>
      exact absurd rfl (hne0 fields)

/-- A failed `ToOneRelationship.pre_validate` is an `InvalidDocument` error
whose pointer extends the relationship object's source pointer. -/
theorem to_one_error {types : List String} {rd : Bool} {d : Validator.JVal}
    {sp : String} {e : Errors.Error}
    (h : Validator.to_one_pre_validate types rd d sp = .error e) :
    e.http_status = 400 ∧ e.title = "InvalidDocument" ∧
      ∃ s, e.source_pointer = some (sp ++ s) := by
  unfold Validator.to_one_pre_validate at h
  split at h
  next heq =>
    injection h with h
    subst h
    exact relationship_pre_validate_error heq
  next =>
    split at h
    next fields =>
      split at h
      next => exact Except.noConfusion h
      next => exact Except.noConfusion h
      next =>
        obtain ⟨g1, g2, s, g3⟩ := pre_validate_rio_error h
        exact ⟨g1, g2, "data/" ++ s, by rw [g3, String.append_assoc]⟩
      next =>
        injection h with h
        subst h
        exact ⟨rfl, rfl, "data/", rfl⟩
    next => exact Except.noConfusion h

/-- A failed `ToManyRelationship.pre_validate` is an `InvalidDocument`
error whose pointer extends the relationship object's source pointer. -/
theorem to_many_error {types : List String} {rd : Bool} {d : Validator.JVal}
    {sp : String} {e : Errors.Error}
    (h : Validator.to_many_pre_validate types rd d sp = .error e) :
    e.http_status = 400 ∧ e.title = "InvalidDocument" ∧
      ∃ s, e.source_pointer = some (sp ++ s) := by
  unfold Validator.to_many_pre_validate at h
  split at h
  next heq =>
    injection h with h
    subst h
    exact relationship_pre_validate_error heq
  next =>
    split at h
    next fields =>
      split at h
      next => exact Except.noConfusion h
      next => exact validate_identifier_items_error h
      next =>
        injection h with h
        subst h
        exact ⟨rfl, rfl, "data/", rfl⟩
    next => exact Except.noConfusion h

/-- Claim C5: a validated to-one `data` member is null or a single resource
identifier object, a validated to-many `data` member is an array of
resource identifier objects, each identifier's `type` lies in the declared
allowed remote-type set (an empty allow-list accepting any type), and every
violation raises `InvalidDocument` carrying a source pointer under the
offending relationship object's pointer. -/
theorem claim_C5_relationship_validation (types : List String) (rd : Bool)
    (fields : List (String × Validator.JVal)) (d : Validator.JVal) (sp : String) :
    (∀ v, Validator.to_one_pre_validate types rd (.obj fields) sp = .ok () →
        fields.lookup "data" = some v →
        v = .null ∨ Validator.identifierOk types v) ∧
    (∀ v, Validator.to_many_pre_validate types rd (.obj fields) sp = .ok () →
        fields.lookup "data" = some v →
        ∃ items, v = .arr items ∧ ∀ x ∈ items, Validator.identifierOk types x) ∧
    (∀ e, Validator.to_one_pre_validate types rd d sp = .error e →
        e.http_status = 400 ∧ e.title = "InvalidDocument" ∧
        ∃ s, e.source_pointer = some (sp ++ s)) ∧
    (∀ e, Validator.to_many_pre_validate types rd d sp = .error e →
        e.http_status = 400 ∧ e.title = "InvalidDocument" ∧
        ∃ s, e.source_pointer = some (sp ++ s)) :=
  ⟨fun _ h hv => to_one_ok_data h hv,
   fun _ h hv => to_many_ok_data h hv,
   fun _ h => to_one_error h,
   fun _ h => to_many_error h⟩

/-- Witness for claim C5: the identifier object of type `User` inside a
to-one relationship document validates against the allow-list `[User]`. -/
theorem claim_C5_relationship_validation_witness :
    (Validator.JVal.obj [("type", .str "User"), ("id", .str "1")]) = .null ∨
      Validator.identifierOk ["User"]
        (.obj [("type", .str "User"), ("id", .str "1")]) :=
  (claim_C5_relationship_validation ["User"] false
      [("data", .obj [("type", .str "User"), ("id", .str "1")])] .null "/").1
    (.obj [("type", .str "User"), ("id", .str "1")]) (by rfl) (by rfl)

/-- Witness for claim C6: `page[number]=2` together with `page[size]=10`
paginates, and `page[size]=0` alone is a `BadRequest` naming
`page[size]`. -/
theorem claim_C6_japi_paginate_witness :
    Request.japi_paginate (some "2") (some "10") = .ok true ∧
    ∃ e, Request.japi_paginate (some "2") (some "0") = .error e ∧
      e.http_status = 400 ∧ e.source_parameter = some "page[size]" :=
  ⟨(claim_C6_japi_paginate (some "2") (some "10")).2.1 "2" "10" rfl rfl
      (by decide) (by decide),
   (claim_C6_japi_paginate (some "2") (some "0")).2.2.1 "0" rfl (by decide)⟩

end PyJsonapi
